import Mathlib

/-!
Verification of the `kernlog` crate (`src/lib.rs`): a logging sink writing
application log records to the kernel ring-buffer device `/dev/kmsg`.

The embedding translates the source shallowly:
* `Level` and `LevelFilter` are the `log` crate enumerations, compared by
  their `usize` representations exactly as the `log` crate's `PartialOrd`
  does (`Error` = 1 up to `Trace` = 5, `Off` = 0).
* `KernelLog` keeps the `maxlevel` field; the `Mutex<File>` handle is an OS
  resource, so the behaviour of one `log`/`flush` call is modelled as a
  function of the lock state (poisoned or not) and a `Device` oracle giving
  the results of `write` and `flush` on the open handle. The call's visible
  effect is a `LogEffect`: whether the lock was taken, the ordered list of
  operations attempted on the handle, and the Rust-level outcome (normal
  return or panic).
* The global registration facade of the `log` crate (`set_boxed_logger`,
  `set_max_level`) is external to this repository; it is modelled from the
  spec as explicit state passing over `GlobalLogState`.
-/

namespace Kernlog

/-- Severity levels of the `log` crate (`log::Level`). -/
inductive Level where
  | Error
  | Warn
  | Info
  | Debug
  | Trace
deriving DecidableEq, Repr

/-- The `usize` representation of `log::Level` used by its `PartialOrd`:
`Error` is 1, `Trace` is 5. -/
def Level.toNat : Level → Nat
  | .Error => 1
  | .Warn => 2
  | .Info => 3
  | .Debug => 4
  | .Trace => 5

/-- Level filters of the `log` crate (`log::LevelFilter`): the five levels
plus `Off`, with `usize` representation 0 to 5. -/
inductive LevelFilter where
  | Off
  | Error
  | Warn
  | Info
  | Debug
  | Trace
deriving DecidableEq, Repr

/-- The `usize` representation of `log::LevelFilter`. -/
def LevelFilter.toNat : LevelFilter → Nat
  | .Off => 0
  | .Error => 1
  | .Warn => 2
  | .Info => 3
  | .Debug => 4
  | .Trace => 5

/-- `log::Level::to_level_filter`. -/
def Level.to_level_filter : Level → LevelFilter
  | .Error => .Error
  | .Warn => .Warn
  | .Info => .Info
  | .Debug => .Debug
  | .Trace => .Trace

/-- The cross-type comparison `level <= filter` of the `log` crate, which
compares the `usize` representations. -/
def Level.leFilter (l : Level) (f : LevelFilter) : Bool :=
  decide (l.toNat ≤ f.toNat)

/-- The fields of `log::Metadata` that `KernelLog` consults. -/
structure Metadata where
  level : Level
  target : String
deriving DecidableEq, Repr

/-- A `log::Record`: its metadata plus the already-rendered message text
returned by `record.args()`. -/
structure Record where
  metadata : Metadata
  args : String
deriving DecidableEq, Repr

/-- `record.level()`. -/
def Record.level (r : Record) : Level := r.metadata.level

/-- `record.target()`. -/
def Record.target (r : Record) : String := r.metadata.target

/-- The `KernelLog` sink state: the configured severity ceiling. The
`kmsg : Mutex<File>` handle is an OS resource whose behaviour enters the
model through `Device` below. -/
structure KernelLog where
  maxlevel : LevelFilter
deriving DecidableEq, Repr

/-- `Log::enabled` for `KernelLog`: `meta.level() <= self.maxlevel`. -/
def KernelLog.enabled (self : KernelLog) (meta : Metadata) : Bool :=
  meta.level.leFilter self.maxlevel

/-- An `std::io::Result`: the ok payload, or some I/O error. For a `write`
the payload is the number of bytes the handle accepted, which may be fewer
than were given (a short write). -/
inductive IOResult (α : Type) where
  | ok (a : α)
  | err
deriving DecidableEq, Repr

/-- Behaviour of the open `/dev/kmsg` handle during one call: the result
`Write::write` returns for a given buffer, and the result of `flush`. -/
structure Device where
  writeResult : String → IOResult Nat
  flushResult : IOResult Unit

/-- One operation attempted on the locked handle, together with the result
the handle returned for it. -/
inductive KmsgOp where
  | write (bytes : String) (result : IOResult Nat)
  | flush (result : IOResult Unit)
deriving DecidableEq, Repr

/-- Outcome of a Rust call: a normal return carrying a value, or a panic. -/
inductive RustOutcome (α : Type) where
  | ok (a : α)
  | panicked
deriving DecidableEq, Repr

/-- The visible effect of one `log`/`flush` call on the sink: whether
`self.kmsg.lock()` was reached, the ordered operations attempted on the
handle, and the Rust-level outcome for the caller. -/
structure LogEffect where
  lockAttempted : Bool
  ops : List KmsgOp
  outcome : RustOutcome Unit
deriving DecidableEq, Repr

/-- The `match record.level()` expression in `Log::log` mapping the record
severity to the kernel priority `u8`. -/
def priorityCode : Level → Nat
  | .Error => 3
  | .Warn => 4
  | .Info => 5
  | .Debug => 6
  | .Trace => 7

/-- The bytes the source's `writeln!` call leaves in the fresh in-memory
buffer `buf`: the interpolation of the format string `<`, the level in
decimal, `>`, the target, `: `, the message, followed by the newline that
`writeln!` appends. Writing to an in-memory `Vec` is infallible, so the
trailing `.unwrap()` in the source never panics. -/
def formatBuf (level : Nat) (target args : String) : String :=
  "<" ++ toString level ++ ">" ++ target ++ ": " ++ args ++ "\n"

/-- `Log::log` for `KernelLog`, as a function of the lock state (`poisoned`
is true when a prior holder panicked while holding the lock, making
`self.kmsg.lock()` return `Err`) and the device behaviour. Mirrors the
source: return early unless enabled; map the level; format the buffer;
under `if let Ok(..) = self.kmsg.lock()` write then flush, discarding both
results with `let _ =`. -/
def KernelLog.log (self : KernelLog) (record : Record) (poisoned : Bool)
    (dev : Device) : LogEffect :=
  if !(self.enabled record.metadata) then
    { lockAttempted := false, ops := [], outcome := .ok () }
  else
    let level := priorityCode record.level
    let buf := formatBuf level record.target record.args
    if poisoned then
      { lockAttempted := true, ops := [], outcome := .ok () }
    else
      { lockAttempted := true
        ops := [.write buf (dev.writeResult buf), .flush dev.flushResult]
        outcome := .ok () }

/-- `Log::flush` for `KernelLog`: under `if let Ok(..) = self.kmsg.lock()`
flush the handle, discarding the result. -/
def KernelLog.flush (_self : KernelLog) (poisoned : Bool) (dev : Device) :
    LogEffect :=
  if poisoned then
    { lockAttempted := true, ops := [], outcome := .ok () }
  else
    { lockAttempted := true, ops := [.flush dev.flushResult], outcome := .ok () }

/-- Representative `std::io` error kinds for the open of `/dev/kmsg`. -/
inductive IOErrorKind where
  | notFound
  | permissionDenied
  | other
deriving DecidableEq, Repr

/-- `KernelLog::with_level`: the `kmsg` field is built by
`Mutex::new(OpenOptions::new().write(true).open("/dev/kmsg").unwrap())`;
the `.unwrap()` panics when the open failed. Modelled as a function of the
open result. -/
def with_level (openResult : Except IOErrorKind Unit) (filter : LevelFilter) :
    RustOutcome KernelLog :=
  match openResult with
  | .ok _ => .ok { maxlevel := filter }
  | .error _ => .panicked

/-- `KernelLog::new`: `with_level(LevelFilter::Info)`. -/
def new (openResult : Except IOErrorKind Unit) : RustOutcome KernelLog :=
  with_level openResult LevelFilter.Info

/-- Global state of the `log` crate facade: the installed boxed logger, if
any, and the global maximum level. -/
structure GlobalLogState where
  logger : Option KernelLog
  maxLevel : LevelFilter
deriving DecidableEq, Repr

/-- The registration-conflict error `log::SetLoggerError`. -/
inductive SetLoggerError where
  | alreadySet
deriving DecidableEq, Repr

/-- Modelled from the spec: `log::set_boxed_logger` is external to this
repository; per the spec, installation succeeds when no logger is installed
and fails with a reported conflict, leaving the state unchanged, when one
already is. -/
def set_boxed_logger (st : GlobalLogState) (l : KernelLog) :
    GlobalLogState × Except SetLoggerError Unit :=
  match st.logger with
  | some _ => (st, .error .alreadySet)
  | none => ({ st with logger := some l }, .ok ())

/-- Modelled from the spec: `log::set_max_level` is external to this
repository; it sets the global dispatch layer's maximum level. -/
def set_max_level (st : GlobalLogState) (f : LevelFilter) : GlobalLogState :=
  { st with maxLevel := f }

/-- `init_with_level`: build the sink via `KernelLog::with_level`
(propagating its panic), register it with `log::set_boxed_logger` — the `?`
operator returns the conflict error early — then `log::set_max_level`. -/
def init_with_level (st : GlobalLogState) (openResult : Except IOErrorKind Unit)
    (level : Level) : GlobalLogState × RustOutcome (Except SetLoggerError Unit) :=
  match with_level openResult level.to_level_filter with
  | .panicked => (st, .panicked)
  | .ok logger =>
    match set_boxed_logger st logger with
    | (st1, .error e) => (st1, .ok (.error e))
    | (st1, .ok _) => (set_max_level st1 level.to_level_filter, .ok (.ok ()))

/-- `init`: `init_with_level(Level::Trace)`. -/
def init (st : GlobalLogState) (openResult : Except IOErrorKind Unit) :
    GlobalLogState × RustOutcome (Except SetLoggerError Unit) :=
  init_with_level st openResult .Trace

/-- The spec's severity ordering, stated independently of the code: the
ordinal with `Error` most severe (lowest) and `Trace` least severe. -/
def Level.severityOrdinal : Level → Nat
  | .Error => 0
  | .Warn => 1
  | .Info => 2
  | .Debug => 3
  | .Trace => 4

/-- A concrete device used by witnesses: every write is accepted in full
and flush succeeds. -/
def constDevice : Device :=
  { writeResult := fun s => .ok s.length, flushResult := .ok () }

/-- C1: for every severity, target and message, the buffer written for an
enabled record (with the lock healthy) is exactly the byte sequence `<`,
the decimal priority code, `>`, the target verbatim, `: `, the message
verbatim and exactly one trailing newline — the single write the call
issues carries precisely those bytes, followed by one flush.  In
particular severity `Warn`, target `myapp`, message `disk nearly full`
formats to exactly the bytes of `<4>myapp: disk nearly full` plus a
newline. -/
theorem log_writes_exact_bytes (k : Kernlog.KernelLog) (s : Kernlog.Level)
    (t m : String) (dev : Kernlog.Device)
    (h : k.enabled ⟨s, t⟩ = true) :
    (k.log ⟨⟨s, t⟩, m⟩ false dev).ops =
      [ .write ("<" ++ toString (Kernlog.priorityCode s) ++ ">" ++ t ++ ": " ++ m ++ "\n")
          (dev.writeResult
            ("<" ++ toString (Kernlog.priorityCode s) ++ ">" ++ t ++ ": " ++ m ++ "\n")),
        .flush dev.flushResult ] ∧
    Kernlog.formatBuf (Kernlog.priorityCode .Warn) "myapp" "disk nearly full" =
      "<4>myapp: disk nearly full\n" := by
  constructor
  · simp [Kernlog.KernelLog.log, h, Kernlog.formatBuf, Kernlog.Record.level,
      Kernlog.Record.target]
  · rfl

/-- Witness for C1 at severity `Warn`, target `myapp`, message
`disk nearly full`, ceiling `Info`. -/
theorem log_writes_exact_bytes_witness :
    ((⟨Kernlog.LevelFilter.Info⟩ : Kernlog.KernelLog).log
        ⟨⟨.Warn, "myapp"⟩, "disk nearly full"⟩ false Kernlog.constDevice).ops =
      [ .write "<4>myapp: disk nearly full\n"
          (Kernlog.constDevice.writeResult "<4>myapp: disk nearly full\n"),
        .flush Kernlog.constDevice.flushResult ] := by
  have h := (log_writes_exact_bytes ⟨Kernlog.LevelFilter.Info⟩ .Warn "myapp"
    "disk nearly full" Kernlog.constDevice (by decide)).1
  rw [h]
  rfl

/-- C2: the severity-to-priority-code mapping is total and fixed: each of
the five severities maps to exactly one code — Error to 3, Warn to 4, Info
to 5, Debug to 6, Trace to 7 — and no code outside 3..7 is ever
produced. -/
theorem priorityCode_total_and_fixed :
    Kernlog.priorityCode .Error = 3 ∧ Kernlog.priorityCode .Warn = 4 ∧
    Kernlog.priorityCode .Info = 5 ∧ Kernlog.priorityCode .Debug = 6 ∧
    Kernlog.priorityCode .Trace = 7 ∧
    ∀ s : Kernlog.Level, 3 ≤ Kernlog.priorityCode s ∧ Kernlog.priorityCode s ≤ 7 := by
  refine ⟨rfl, rfl, rfl, rfl, rfl, fun s => ?_⟩
  cases s <;> simp [Kernlog.priorityCode]

/-- C3: for every sink whose ceiling is a severity and every severity `s`,
`enabled s` is true exactly when `s` is at least as severe as the ceiling
(ordinal of `s` at most the ordinal of the ceiling, where `Error` is most
severe / lowest ordinal); concretely for ceiling `Info`, `Debug` and
`Trace` are disabled while `Info`, `Warn` and `Error` are enabled. -/
theorem enabled_iff_at_least_as_severe :
    (∀ (c l : Kernlog.Level) (t : String),
      (⟨c.to_level_filter⟩ : Kernlog.KernelLog).enabled ⟨l, t⟩ =
        decide (l.severityOrdinal ≤ c.severityOrdinal)) ∧
    (∀ t : String,
      (⟨Kernlog.LevelFilter.Info⟩ : Kernlog.KernelLog).enabled ⟨.Debug, t⟩ = false ∧
      (⟨Kernlog.LevelFilter.Info⟩ : Kernlog.KernelLog).enabled ⟨.Trace, t⟩ = false ∧
      (⟨Kernlog.LevelFilter.Info⟩ : Kernlog.KernelLog).enabled ⟨.Info, t⟩ = true ∧
      (⟨Kernlog.LevelFilter.Info⟩ : Kernlog.KernelLog).enabled ⟨.Warn, t⟩ = true ∧
      (⟨Kernlog.LevelFilter.Info⟩ : Kernlog.KernelLog).enabled ⟨.Error, t⟩ = true) := by
  constructor
  · intro c l t
    cases c <;> cases l <;> rfl
  · intro t
    exact ⟨rfl, rfl, rfl, rfl, rfl⟩

/-- C4: when the record's severity is not enabled for the sink, `log` is a
no-op: it returns normally having attempted no lock acquisition, no write
and no flush on the handle, for every lock state and device behaviour —
the enabled check is re-applied at the top of `log` itself. -/
theorem log_disabled_noop (k : Kernlog.KernelLog) (r : Kernlog.Record)
    (poisoned : Bool) (dev : Kernlog.Device)
    (h : k.enabled r.metadata = false) :
    k.log r poisoned dev =
      { lockAttempted := false, ops := [], outcome := .ok () } := by
  simp [Kernlog.KernelLog.log, h]

/-- Witness for C4: ceiling `Info`, record severity `Debug`. -/
theorem log_disabled_noop_witness :
    (⟨Kernlog.LevelFilter.Info⟩ : Kernlog.KernelLog).enabled
      ⟨Kernlog.Level.Debug, "myapp"⟩ = false ∧
    (⟨Kernlog.LevelFilter.Info⟩ : Kernlog.KernelLog).log
      ⟨⟨.Debug, "myapp"⟩, "msg"⟩ false Kernlog.constDevice =
      { lockAttempted := false, ops := [], outcome := .ok () } :=
  ⟨by decide, log_disabled_noop _ _ _ _ (by decide)⟩

/-- C5: for every record, lock state and device behaviour — including a
failing write, a short write accepting fewer bytes than given, and a
failing flush — `log` and `flush` return normally: no error and no panic
ever propagates to the caller. -/
theorem log_flush_swallow_errors :
    (∀ (k : Kernlog.KernelLog) (r : Kernlog.Record) (poisoned : Bool)
        (dev : Kernlog.Device), (k.log r poisoned dev).outcome = .ok ()) ∧
    (∀ (k : Kernlog.KernelLog) (poisoned : Bool) (dev : Kernlog.Device),
        (k.flush poisoned dev).outcome = .ok ()) := by
  constructor
  · intro k r poisoned dev
    unfold Kernlog.KernelLog.log
    split
    · rfl
    · split <;> rfl
  · intro k poisoned dev
    unfold Kernlog.KernelLog.flush
    split <;> rfl

/-- C6 counterexample: when the open of `/dev/kmsg` fails (here: permission
denied), `with_level` panics — the construction aborts via `unwrap` rather
than returning an explicit error value the caller could react to, and no
sink is produced. -/
theorem with_level_open_failure_counterexample :
    Kernlog.with_level (Except.error .permissionDenied) Kernlog.LevelFilter.Info =
      Kernlog.RustOutcome.panicked ∧
    Kernlog.with_level (Except.error .permissionDenied) Kernlog.LevelFilter.Info ≠
      Kernlog.RustOutcome.ok ⟨Kernlog.LevelFilter.Info⟩ := by
  exact ⟨rfl, by decide⟩

/-- C6 amended: if opening the device file fails, construction (`new` /
`with_level`) fails fatally by panicking — the `unwrap` aborts the
constructor call instead of returning an error value — and no sink,
degraded or no-op, is ever produced. -/
theorem with_level_open_failure_no_sink (e : Kernlog.IOErrorKind)
    (f : Kernlog.LevelFilter) :
    Kernlog.with_level (Except.error e) f = Kernlog.RustOutcome.panicked ∧
    Kernlog.new (Except.error e) = Kernlog.RustOutcome.panicked := by
  constructor <;> rfl

/-- C7: from an unregistered state with the device open succeeding, `init`
installs a sink whose ceiling is `Trace`, and `init_with_level level`
installs a sink whose ceiling is `level` while setting the global dispatch
layer's maximum level to that same level. -/
theorem init_installs_expected_ceiling (st : Kernlog.GlobalLogState)
    (level : Kernlog.Level) (h : st.logger = none) :
    Kernlog.init st (Except.ok ()) =
      ({ logger := some ⟨Kernlog.LevelFilter.Trace⟩
         maxLevel := Kernlog.LevelFilter.Trace }, .ok (.ok ())) ∧
    Kernlog.init_with_level st (Except.ok ()) level =
      ({ logger := some ⟨level.to_level_filter⟩
         maxLevel := level.to_level_filter }, .ok (.ok ())) := by
  obtain ⟨lg, ml⟩ := st
  cases h
  constructor
  · rfl
  · simp [Kernlog.init_with_level, Kernlog.with_level, Kernlog.set_boxed_logger,
      Kernlog.set_max_level]

/-- Witness for C7: empty global state, level `Warn`. -/
theorem init_installs_expected_ceiling_witness :
    (⟨none, Kernlog.LevelFilter.Off⟩ : Kernlog.GlobalLogState).logger = none ∧
    Kernlog.init ⟨none, Kernlog.LevelFilter.Off⟩ (Except.ok ()) =
      ({ logger := some ⟨Kernlog.LevelFilter.Trace⟩
         maxLevel := Kernlog.LevelFilter.Trace }, .ok (.ok ())) :=
  ⟨rfl, (init_installs_expected_ceiling ⟨none, Kernlog.LevelFilter.Off⟩ .Warn rfl).1⟩

/-- C8: attempting a second registration after a first succeeded returns
the distinct conflict error `SetLoggerError` to the caller and leaves the
whole global state — in particular the installed first logger —
unchanged; the conflict is never silently ignored. -/
theorem second_registration_conflict (st : Kernlog.GlobalLogState)
    (level : Kernlog.Level) (first : Kernlog.KernelLog)
    (h : st.logger = some first) :
    Kernlog.init_with_level st (Except.ok ()) level =
      (st, .ok (.error .alreadySet)) ∧
    (Kernlog.init_with_level st (Except.ok ()) level).1.logger = some first := by
  have hmain : Kernlog.init_with_level st (Except.ok ()) level =
      (st, .ok (.error .alreadySet)) := by
    simp [Kernlog.init_with_level, Kernlog.with_level, Kernlog.set_boxed_logger, h]
  exact ⟨hmain, by rw [hmain]; exact h⟩

/-- Witness for C8: a state holding a first logger with ceiling `Error`. -/
theorem second_registration_conflict_witness :
    (⟨some ⟨Kernlog.LevelFilter.Error⟩, Kernlog.LevelFilter.Error⟩ :
        Kernlog.GlobalLogState).logger = some ⟨Kernlog.LevelFilter.Error⟩ ∧
    Kernlog.init_with_level
        ⟨some ⟨Kernlog.LevelFilter.Error⟩, Kernlog.LevelFilter.Error⟩
        (Except.ok ()) .Info =
      (⟨some ⟨Kernlog.LevelFilter.Error⟩, Kernlog.LevelFilter.Error⟩,
        .ok (.error .alreadySet)) :=
  ⟨rfl, (second_registration_conflict _ .Info ⟨Kernlog.LevelFilter.Error⟩ rfl).1⟩

/-- C9: when the lock is poisoned, `log` attempts no write and no flush on
the handle and still returns normally, and `flush` likewise attempts
nothing on the handle and returns normally — the operation is silently
skipped, for every sink, record and device behaviour. -/
theorem poisoned_lock_skips (k : Kernlog.KernelLog) (r : Kernlog.Record)
    (dev : Kernlog.Device) :
    (k.log r true dev).ops = [] ∧ (k.log r true dev).outcome = .ok () ∧
    k.flush true dev =
      { lockAttempted := true, ops := [], outcome := .ok () } := by
  refine ⟨?_, ?_, rfl⟩ <;>
    (unfold Kernlog.KernelLog.log; split <;> rfl)

/-- C10: when `init_with_level` fails with a registration conflict, the
global maximum-level setting is left unchanged: `set_max_level` runs only
after registration succeeds, so a failed initialization modifies no global
dispatch state. -/
theorem failed_registration_preserves_max_level (st : Kernlog.GlobalLogState)
    (level : Kernlog.Level) (first : Kernlog.KernelLog)
    (h : st.logger = some first) :
    (Kernlog.init_with_level st (Except.ok ()) level).1 = st ∧
    (Kernlog.init_with_level st (Except.ok ()) level).1.maxLevel = st.maxLevel := by
  have hmain : (Kernlog.init_with_level st (Except.ok ()) level).1 = st := by
    simp [Kernlog.init_with_level, Kernlog.with_level, Kernlog.set_boxed_logger, h]
  exact ⟨hmain, by rw [hmain]⟩

/-- Witness for C10: a state holding a first logger, max level `Debug`. -/
theorem failed_registration_preserves_max_level_witness :
    (⟨some ⟨Kernlog.LevelFilter.Trace⟩, Kernlog.LevelFilter.Debug⟩ :
        Kernlog.GlobalLogState).logger = some ⟨Kernlog.LevelFilter.Trace⟩ ∧
    (Kernlog.init_with_level
        ⟨some ⟨Kernlog.LevelFilter.Trace⟩, Kernlog.LevelFilter.Debug⟩
        (Except.ok ()) .Error).1.maxLevel = Kernlog.LevelFilter.Debug :=
  ⟨rfl, (failed_registration_preserves_max_level _ .Error
    ⟨Kernlog.LevelFilter.Trace⟩ rfl).2⟩

end Kernlog
